import Mathlib

/-!
Shallow embedding of the physics/collision core of the Gravity Flip Sprinter
repository (modules `src/config.py`, `src/player.py`, `src/enemies.py`,
`src/platforms.py`, `src/level.py`).

Python floats are modelled as rationals (ℚ); `pygame.Rect` stores integer
coordinates obtained by Python `int()` truncation toward zero, modelled by
`pytrunc`.  Color and the stored config reference are omitted from entity
structures: no modelled operation reads them, they are pure rendering data.
File I/O around level (de)serialization is stripped: the JSON dictionary that
`save_to_json` builds and `load_from_json` consumes is modelled as `LevelData`
with `Option` fields standing for possibly-missing dictionary keys, and a
missing required key (Python `KeyError`) is an `Except.error` naming the key.
-/

/-- Python `int()` truncation toward zero, as used by `pygame.Rect` on the
float positions stored in entities. -/
def pytrunc (q : ℚ) : ℤ :=
  if 0 ≤ q then ⌊q⌋ else -⌊-q⌋

/-- Integer axis-aligned rectangle, mirroring `pygame.Rect(x, y, w, h)`. -/
structure Rect where
  left : ℤ
  top : ℤ
  width : ℤ
  height : ℤ
  deriving DecidableEq

def Rect.right (r : Rect) : ℤ := r.left + r.width

def Rect.bottom (r : Rect) : ℤ := r.top + r.height

/-- `pygame.Rect.colliderect`: true when the rectangles overlap with positive
area (touching edges do not collide). -/
def colliderect (a b : Rect) : Bool :=
  (a.left < b.right) && (a.right > b.left) && (a.top < b.bottom) && (a.bottom > b.top)

/-- The fields of `GameConfig` (src/config.py) read by the physics core. -/
structure GameConfig where
  player_speed : ℚ
  player_jump_force : ℚ
  player_width : ℤ
  player_height : ℤ
  gravity_strength : ℚ
  max_fall_speed : ℚ
  deriving DecidableEq

/-- `default_config` values from src/config.py (`gravity_strength = 0.8`). -/
def default_config : GameConfig :=
  { player_speed := 5
    player_jump_force := 15
    player_width := 32
    player_height := 48
    gravity_strength := 4/5
    max_fall_speed := 15 }

/-- Player state (src/player.py, `Player.__init__`). -/
structure Player where
  x : ℚ
  y : ℚ
  spawn_x : ℚ
  spawn_y : ℚ
  dx : ℚ
  dy : ℚ
  gravity_direction : ℤ
  on_ground : Bool
  width : ℤ
  height : ℤ
  facing_right : Bool
  is_moving : Bool
  deriving DecidableEq

/-- `Player.__init__(x, y, config)`. -/
def Player.init (cfg : GameConfig) (x y : ℚ) : Player :=
  { x := x, y := y, spawn_x := x, spawn_y := y
    dx := 0, dy := 0
    gravity_direction := 1, on_ground := false
    width := cfg.player_width, height := cfg.player_height
    facing_right := true, is_moving := false }

/-- `Player.rect`: `pygame.Rect(int(self.x), int(self.y), self.width, self.height)`. -/
def Player.rect (p : Player) : Rect :=
  { left := pytrunc p.x, top := pytrunc p.y, width := p.width, height := p.height }

/-- `Player.jump` (src/player.py lines 82-94): fires only when on the ground;
returns the updated player paired with the Python return value. -/
def Player.jump (cfg : GameConfig) (p : Player) : Player × Bool :=
  if p.on_ground then
    ({ p with dy := -cfg.player_jump_force * (p.gravity_direction : ℚ), on_ground := false }, true)
  else
    (p, false)

/-- `Player.flip_gravity` (src/player.py lines 96-99). -/
def Player.flip_gravity (p : Player) : Player :=
  { p with gravity_direction := p.gravity_direction * (-1), on_ground := false }

/-- `Player.apply_gravity` (src/player.py lines 101-110). -/
def Player.apply_gravity (cfg : GameConfig) (p : Player) : Player :=
  let dy1 := p.dy + cfg.gravity_strength * (p.gravity_direction : ℚ)
  if p.gravity_direction > 0 then
    { p with dy := min dy1 cfg.max_fall_speed }
  else
    { p with dy := max dy1 (-cfg.max_fall_speed) }

/-- Static platform (src/platforms.py, class `Platform`). -/
structure StaticPlatform where
  x : ℚ
  y : ℚ
  width : ℤ
  height : ℤ
  deriving DecidableEq

/-- Moving platform (src/platforms.py, class `MovingPlatform`). -/
structure MovingPlatform where
  x : ℚ
  y : ℚ
  width : ℤ
  height : ℤ
  start_x : ℚ
  start_y : ℚ
  end_x : ℚ
  end_y : ℚ
  speed : ℚ
  progress : ℚ
  direction : ℤ
  deriving DecidableEq

/-- `MovingPlatform.__init__(x, y, width, height, end_x, end_y, speed, ...)`. -/
def MovingPlatform.init (x y : ℚ) (width height : ℤ) (end_x end_y speed : ℚ) : MovingPlatform :=
  { x := x, y := y, width := width, height := height
    start_x := x, start_y := y, end_x := end_x, end_y := end_y
    speed := speed, progress := 0, direction := 1 }

/-- `MovingPlatform.update` (src/platforms.py lines 115-129): advance progress
by `speed * direction * 0.01`, clamp and reverse at the endpoints, then place
the platform at the interpolation of start and end by the clamped progress. -/
def MovingPlatform.update (m : MovingPlatform) : MovingPlatform :=
  let pr0 := m.progress + m.speed * (m.direction : ℚ) * (1/100)
  let pr := if pr0 ≥ 1 then 1 else if pr0 ≤ 0 then 0 else pr0
  let dir := if pr0 ≥ 1 then -1 else if pr0 ≤ 0 then 1 else m.direction
  { m with progress := pr, direction := dir
         , x := m.start_x + (m.end_x - m.start_x) * pr
         , y := m.start_y + (m.end_y - m.start_y) * pr }

/-- Gravity-reactive platform (src/platforms.py, class `GravityPlatform`). -/
structure GravityPlatform where
  x : ℚ
  y : ℚ
  width : ℤ
  height : ℤ
  dy : ℚ
  gravity_direction : ℤ
  is_falling : Bool
  original_y : ℚ
  deriving DecidableEq

/-- `GravityPlatform.__init__(x, y, width, height, ...)`. -/
def GravityPlatform.init (x y : ℚ) (width height : ℤ) : GravityPlatform :=
  { x := x, y := y, width := width, height := height
    dy := 0, gravity_direction := 1, is_falling := false, original_y := y }

/-- `GravityPlatform.set_gravity` (src/platforms.py lines 160-164): only a
differing direction is recorded and starts the fall. -/
def GravityPlatform.set_gravity (g : GravityPlatform) (direction : ℤ) : GravityPlatform :=
  if direction ≠ g.gravity_direction then
    { g with gravity_direction := direction, is_falling := true }
  else
    g

/-- Platform objects as they sit in a level's platform list; collision code
only reads their `rect`, serialization dispatches on the variant. -/
inductive PlatformObj where
  | static : StaticPlatform → PlatformObj
  | moving : MovingPlatform → PlatformObj
  | gravity : GravityPlatform → PlatformObj
  deriving DecidableEq

/-- The `rect` property shared by all platform variants. -/
def PlatformObj.rect : PlatformObj → Rect
  | .static s => { left := pytrunc s.x, top := pytrunc s.y, width := s.width, height := s.height }
  | .moving m => { left := pytrunc m.x, top := pytrunc m.y, width := m.width, height := m.height }
  | .gravity g => { left := pytrunc g.x, top := pytrunc g.y, width := g.width, height := g.height }

/-- Body of the `for platform in platforms` loop of
`Player._check_vertical_collisions` (src/player.py lines 145-162).  `r` is the
player rectangle computed once on entry to the method; `self.dy` and
`self.gravity_direction` are read from the mutated state. -/
def Player.vcStep (r : Rect) (p : Player) (platform : PlatformObj) : Player :=
  if colliderect r platform.rect then
    if p.gravity_direction > 0 then
      if p.dy > 0 then
        { p with y := ((platform.rect.top - p.height : ℤ) : ℚ), dy := 0, on_ground := true }
      else if p.dy < 0 then
        { p with y := ((platform.rect.bottom : ℤ) : ℚ), dy := 0 }
      else p
    else
      if p.dy < 0 then
        { p with y := ((platform.rect.bottom : ℤ) : ℚ), dy := 0, on_ground := true }
      else if p.dy > 0 then
        { p with y := ((platform.rect.top - p.height : ℤ) : ℚ), dy := 0 }
      else p
  else p

/-- `Player._check_vertical_collisions` (src/player.py lines 140-162):
remember the entry rectangle, reset `on_ground`, then resolve against each
platform in list order. -/
def Player.checkVerticalCollisions (p : Player) (platforms : List PlatformObj) : Player :=
  platforms.foldl (Player.vcStep p.rect) { p with on_ground := false }

/-- Enemy state (src/enemies.py, `Enemy.__init__`). -/
structure Enemy where
  x : ℚ
  y : ℚ
  start_x : ℚ
  width : ℤ
  height : ℤ
  patrol_distance : ℚ
  speed : ℚ
  dx : ℚ
  dy : ℚ
  direction : ℤ
  gravity_direction : ℤ
  on_ground : Bool
  deriving DecidableEq

/-- `Enemy.__init__(x, y, width, height, patrol_distance, speed, ...)`:
`start_x := x`, `dx := speed`, `dy := 0`, `direction := 1`,
`gravity_direction := 1`, `on_ground := False`. -/
def Enemy.init (x y : ℚ) (width height : ℤ) (patrol_distance speed : ℚ) : Enemy :=
  { x := x, y := y, start_x := x, width := width, height := height
    patrol_distance := patrol_distance, speed := speed
    dx := speed, dy := 0, direction := 1
    gravity_direction := 1, on_ground := false }

/-- `Enemy.rect`. -/
def Enemy.rect (e : Enemy) : Rect :=
  { left := pytrunc e.x, top := pytrunc e.y, width := e.width, height := e.height }

/-- `Enemy.set_gravity` (src/enemies.py lines 71-74): unconditionally stores
the direction and clears `on_ground`, with no same-direction guard. -/
def Enemy.set_gravity (e : Enemy) (direction : ℤ) : Enemy :=
  { e with gravity_direction := direction, on_ground := false }

/-- `Enemy.apply_gravity` (src/enemies.py lines 76-86). -/
def Enemy.apply_gravity (cfg : GameConfig) (e : Enemy) : Enemy :=
  let dy1 := e.dy + cfg.gravity_strength * (e.gravity_direction : ℚ)
  if e.gravity_direction > 0 then
    { e with dy := min dy1 cfg.max_fall_speed }
  else
    { e with dy := max dy1 (-cfg.max_fall_speed) }

/-- `Enemy._patrol` (src/enemies.py lines 107-114): reverse at and beyond the
inclusive boundaries, first branch winning. -/
def Enemy.patrol (e : Enemy) : Enemy :=
  let dist := e.x - e.start_x
  if dist ≥ e.patrol_distance then { e with direction := -1 }
  else if dist ≤ -e.patrol_distance then { e with direction := 1 }
  else e

/-- Body of the platform loop of `Enemy._check_collisions`
(src/enemies.py lines 121-138); the duplicate of `Player.vcStep`. -/
def Enemy.vcStep (r : Rect) (e : Enemy) (platform : PlatformObj) : Enemy :=
  if colliderect r platform.rect then
    if e.gravity_direction > 0 then
      if e.dy > 0 then
        { e with y := ((platform.rect.top - e.height : ℤ) : ℚ), dy := 0, on_ground := true }
      else if e.dy < 0 then
        { e with y := ((platform.rect.bottom : ℤ) : ℚ), dy := 0 }
      else e
    else
      if e.dy < 0 then
        { e with y := ((platform.rect.bottom : ℤ) : ℚ), dy := 0, on_ground := true }
      else if e.dy > 0 then
        { e with y := ((platform.rect.top - e.height : ℤ) : ℚ), dy := 0 }
      else e
  else e

/-- `Enemy._check_collisions` (src/enemies.py lines 116-138). -/
def Enemy.checkCollisions (e : Enemy) (platforms : List PlatformObj) : Enemy :=
  platforms.foldl (Enemy.vcStep e.rect) { e with on_ground := false }

/-- Static hazard (src/enemies.py, class `Hazard`). -/
structure Hazard where
  x : ℚ
  y : ℚ
  width : ℤ
  height : ℤ
  deriving DecidableEq

/-- Level state (src/level.py, class `Level`); the platform, enemy and hazard
lists with spawn, bounds and camera. -/
structure Level where
  platforms : List PlatformObj
  enemies : List Enemy
  hazards : List Hazard
  player_spawn : ℚ × ℚ
  level_bounds : ℚ × ℚ × ℚ × ℚ
  camera_x : ℚ
  deriving DecidableEq

/-- `Level.is_player_out_of_bounds` (src/level.py lines 117-137). -/
def Level.isPlayerOutOfBounds (lvl : Level) (player_x player_y : ℚ) (player_height : ℤ) : Bool :=
  let max_y := lvl.level_bounds.2.2.2
  let min_y := lvl.level_bounds.2.2.1
  decide (player_y > max_y + (player_height : ℚ)) ||
    decide (player_y < min_y - (player_height : ℚ))

/-- `Level.set_gravity_for_all` (src/level.py lines 89-101): broadcast to all
enemies, and to exactly the gravity platforms among the platforms. -/
def Level.setGravityForAll (lvl : Level) (direction : ℤ) : Level :=
  { lvl with
    enemies := lvl.enemies.map (Enemy.set_gravity · direction)
    platforms := lvl.platforms.map fun p =>
      match p with
      | .gravity g => .gravity (g.set_gravity direction)
      | p => p }

/-- One platform dictionary of the JSON level file; `Option` marks
possibly-absent keys. -/
structure PlatformEntry where
  type : Option String
  x : Option ℚ
  y : Option ℚ
  width : Option ℤ
  height : Option ℤ
  end_x : Option ℚ
  end_y : Option ℚ
  speed : Option ℚ
  deriving DecidableEq

/-- One enemy dictionary of the JSON level file. -/
structure EnemyEntry where
  x : Option ℚ
  y : Option ℚ
  width : Option ℤ
  height : Option ℤ
  patrol_distance : Option ℚ
  speed : Option ℚ
  deriving DecidableEq

/-- One hazard dictionary of the JSON level file. -/
structure HazardEntry where
  x : Option ℚ
  y : Option ℚ
  width : Option ℤ
  height : Option ℤ
  deriving DecidableEq

/-- The toplevel JSON level dictionary. -/
structure LevelData where
  bounds : Option (ℚ × ℚ × ℚ × ℚ)
  spawn : Option (ℚ × ℚ)
  platforms : List PlatformEntry
  enemies : List EnemyEntry
  hazards : List HazardEntry
  deriving DecidableEq

/-- Python `d[key]`: a missing key raises `KeyError(key)`, modelled as an
`Except.error` carrying the key name. -/
def req {α : Type} (key : String) : Option α → Except String α
  | none => Except.error key
  | some v => Except.ok v

/-- The `for`-loop-with-append over a fallible per-entry constructor: entries
are processed in list order and the first raised error aborts the loop. -/
def mapE {α β : Type} (f : α → Except String β) : List α → Except String (List β)
  | [] => Except.ok []
  | a :: as =>
    match f a with
    | Except.error msg => Except.error msg
    | Except.ok b =>
      match mapE f as with
      | Except.error msg => Except.error msg
      | Except.ok bs => Except.ok (b :: bs)

/-- The platform branch of `LevelLoader.load_from_json`
(src/level.py lines 239-259): dispatch on the optional `type` tag, read the
required `x`, `y`, `width`, `height` keys in evaluation order, default the
optional moving-platform keys (`end_x` to `x`, `end_y` to `y`, `speed` to 2). -/
def loadPlatform (p : PlatformEntry) : Except String PlatformObj := do
  let ptype := p.type.getD "static"
  if ptype = "moving" then
    let x ← req "x" p.x
    let y ← req "y" p.y
    let w ← req "width" p.width
    let h ← req "height" p.height
    pure (.moving (MovingPlatform.init x y w h (p.end_x.getD x) (p.end_y.getD y) (p.speed.getD 2)))
  else if ptype = "gravity" then
    let x ← req "x" p.x
    let y ← req "y" p.y
    let w ← req "width" p.width
    let h ← req "height" p.height
    pure (.gravity (GravityPlatform.init x y w h))
  else
    let x ← req "x" p.x
    let y ← req "y" p.y
    let w ← req "width" p.width
    let h ← req "height" p.height
    pure (.static { x := x, y := y, width := w, height := h })

/-- The enemy branch of `LevelLoader.load_from_json`
(src/level.py lines 262-270): only `x` and `y` are required; `width` and
`height` default to 32, `patrol_distance` to 100, `speed` to 2. -/
def loadEnemy (e : EnemyEntry) : Except String Enemy := do
  let x ← req "x" e.x
  let y ← req "y" e.y
  pure (Enemy.init x y (e.width.getD 32) (e.height.getD 32)
    (e.patrol_distance.getD 100) (e.speed.getD 2))

/-- The hazard branch of `LevelLoader.load_from_json`
(src/level.py lines 273-277): all four keys required. -/
def loadHazard (h : HazardEntry) : Except String Hazard := do
  let x ← req "x" h.x
  let y ← req "y" h.y
  let w ← req "width" h.width
  let hh ← req "height" h.height
  pure { x := x, y := y, width := w, height := hh }

/-- `LevelLoader.load_from_json` (src/level.py lines 207-279) after JSON
parsing: bounds and spawn fall back to the `Level.__init__` defaults, then
the platform, enemy and hazard lists are built in order, the first missing
required key aborting the whole load. -/
def loadLevel (d : LevelData) : Except String Level := do
  let plats ← mapE loadPlatform d.platforms
  let enemies ← mapE loadEnemy d.enemies
  let hazards ← mapE loadHazard d.hazards
  pure { platforms := plats, enemies := enemies, hazards := hazards
         player_spawn := d.spawn.getD (100, 300)
         level_bounds := d.bounds.getD (0, 2000, 0, 600)
         camera_x := 0 }

/-- The platform record written by `LevelLoader.save_to_json`
(src/level.py lines 303-321): current `x`/`y` plus the subtype tag, and the
end point and speed for moving platforms. -/
def savePlatform : PlatformObj → PlatformEntry
  | .static s =>
    { type := some "static", x := some s.x, y := some s.y
      width := some s.width, height := some s.height
      end_x := none, end_y := none, speed := none }
  | .moving m =>
    { type := some "moving", x := some m.x, y := some m.y
      width := some m.width, height := some m.height
      end_x := some m.end_x, end_y := some m.end_y, speed := some m.speed }
  | .gravity g =>
    { type := some "gravity", x := some g.x, y := some g.y
      width := some g.width, height := some g.height
      end_x := none, end_y := none, speed := none }

/-- The enemy record written by `LevelLoader.save_to_json`
(src/level.py lines 323-331): `x` is the patrol anchor `start_x`, `y` the
current vertical position. -/
def saveEnemy (e : Enemy) : EnemyEntry :=
  { x := some e.start_x, y := some e.y
    width := some e.width, height := some e.height
    patrol_distance := some e.patrol_distance, speed := some e.speed }

/-- The hazard record written by `LevelLoader.save_to_json`
(src/level.py lines 333-339). -/
def saveHazard (h : Hazard) : HazardEntry :=
  { x := some h.x, y := some h.y, width := some h.width, height := some h.height }

/-- `LevelLoader.save_to_json` (src/level.py lines 281-342) up to JSON
printing: the dictionary it assembles from a level. -/
def saveLevel (lvl : Level) : LevelData :=
  { bounds := some lvl.level_bounds
    spawn := some lvl.player_spawn
    platforms := lvl.platforms.map savePlatform
    enemies := lvl.enemies.map saveEnemy
    hazards := lvl.hazards.map saveHazard }

/-- Whether an `Except` result is a success. -/
def isOkE {α : Type} : Except String α → Bool
  | Except.ok _ => true
  | Except.error _ => false


lemma except_bind_error {α β : Type} (msg : String) (f : α → Except String β) :
    (Except.error msg : Except String α) >>= f = Except.error msg := rfl

lemma except_bind_ok {α β : Type} (a : α) (f : α → Except String β) :
    (Except.ok a : Except String α) >>= f = f a := rfl

lemma player_vcStep_of_dy_zero (r : Rect) (p : Player) (pl : PlatformObj)
    (h : p.dy = 0) : Player.vcStep r p pl = p := by
  simp [Player.vcStep, h]

lemma enemy_vcStep_of_dy_zero (r : Rect) (e : Enemy) (pl : PlatformObj)
    (h : e.dy = 0) : Enemy.vcStep r e pl = e := by
  simp [Enemy.vcStep, h]

lemma foldl_player_vcStep_of_dy_zero (r : Rect) (l : List PlatformObj) (p : Player)
    (h : p.dy = 0) : l.foldl (Player.vcStep r) p = p := by
  induction l with
  | nil => rfl
  | cons a as ih => rw [List.foldl_cons, player_vcStep_of_dy_zero r p a h, ih]

lemma foldl_enemy_vcStep_of_dy_zero (r : Rect) (l : List PlatformObj) (e : Enemy)
    (h : e.dy = 0) : l.foldl (Enemy.vcStep r) e = e := by
  induction l with
  | nil => rfl
  | cons a as ih => rw [List.foldl_cons, enemy_vcStep_of_dy_zero r e a h, ih]

/-- C9: when the vertical velocity is exactly 0, the vertical collision pass
of both the Player and the Enemy leaves position and velocity untouched and
only resets the on-ground flag to false, whatever platforms overlap. -/
theorem vertical_pass_noop_when_vy_zero (p : Player) (e : Enemy) (plats : List PlatformObj) :
    (p.dy = 0 → Player.checkVerticalCollisions p plats = { p with on_ground := false }) ∧
    (e.dy = 0 → Enemy.checkCollisions e plats = { e with on_ground := false }) := by
  constructor
  · intro h
    unfold Player.checkVerticalCollisions
    exact foldl_player_vcStep_of_dy_zero _ _ _ h
  · intro h
    unfold Enemy.checkCollisions
    exact foldl_enemy_vcStep_of_dy_zero _ _ _ h

/-- C9 witness: a player and an enemy with zero vertical velocity sitting
inside a platform are left in place with the ground flag cleared. -/
theorem vertical_pass_noop_when_vy_zero_witness :
    Player.checkVerticalCollisions (Player.init default_config 0 350) [.static { x := 0, y := 340, width := 100, height := 20 }] =
      { Player.init default_config 0 350 with on_ground := false } ∧
    Enemy.checkCollisions (Enemy.init 0 350 32 32 100 2) [.static { x := 0, y := 340, width := 100, height := 20 }] =
      { Enemy.init 0 350 32 32 100 2 with on_ground := false } :=
  ⟨(vertical_pass_noop_when_vy_zero (Player.init default_config 0 350) (Enemy.init 0 350 32 32 100 2) _).1 rfl,
   (vertical_pass_noop_when_vy_zero (Player.init default_config 0 350) (Enemy.init 0 350 32 32 100 2) _).2 rfl⟩

/-- C4: `Player.jump` fires exactly when `on_ground` is true: it then sets the
vertical velocity to `-jump_force * gravity_direction`, clears `on_ground` and
returns true; when airborne it returns false and changes nothing. -/
theorem jump_fires_only_on_ground (cfg : GameConfig) (p : Player) :
    (p.on_ground = true →
      Player.jump cfg p =
        ({ p with dy := -cfg.player_jump_force * (p.gravity_direction : ℚ), on_ground := false }, true)) ∧
    (p.on_ground = false → Player.jump cfg p = (p, false)) := by
  constructor <;> intro h <;> simp [Player.jump, h]

/-- C4 witness: a grounded player jumps with velocity `-15`, an airborne one
is unchanged. -/
theorem jump_fires_only_on_ground_witness :
    Player.jump default_config { Player.init default_config 0 300 with on_ground := true } =
      ({ Player.init default_config 0 300 with on_ground := false, dy := -default_config.player_jump_force * ((1 : ℤ) : ℚ) }, true) ∧
    Player.jump default_config (Player.init default_config 0 300) = (Player.init default_config 0 300, false) :=
  ⟨(jump_fires_only_on_ground default_config { Player.init default_config 0 300 with on_ground := true }).1 rfl,
   (jump_fires_only_on_ground default_config (Player.init default_config 0 300)).2 rfl⟩

/-- C5: patrol reversal is inclusive at both boundaries: at displacement
`≥ patrol_distance` the direction becomes −1, at `≤ −patrol_distance` it
becomes +1, and strictly between the boundaries the enemy is unchanged
(positive patrol distance, as patrol half-widths are). -/
theorem patrol_reversal_inclusive (e : Enemy) (hpd : 0 < e.patrol_distance) :
    (e.patrol_distance ≤ e.x - e.start_x → (Enemy.patrol e).direction = -1) ∧
    (e.x - e.start_x ≤ -e.patrol_distance → (Enemy.patrol e).direction = 1) ∧
    (-e.patrol_distance < e.x - e.start_x → e.x - e.start_x < e.patrol_distance →
      Enemy.patrol e = e) := by
  refine ⟨fun h => ?_, fun h => ?_, fun h1 h2 => ?_⟩
  · simp [Enemy.patrol, h]
  · have hno : ¬ (e.patrol_distance ≤ e.x - e.start_x) := by linarith
    simp [Enemy.patrol, h, hno]
  · have hno : ¬ (e.patrol_distance ≤ e.x - e.start_x) := by linarith
    have hno2 : ¬ (e.x - e.start_x ≤ -e.patrol_distance) := by linarith
    simp [Enemy.patrol, hno, hno2]

/-- C5 witness: with anchor 0 and patrol distance 100, an enemy at exactly
x = 100 reverses to −1, at exactly x = −100 reverses to +1, and at x = 50 is
unchanged. -/
theorem patrol_reversal_inclusive_witness :
    (Enemy.patrol { Enemy.init 0 0 32 32 100 2 with x := 100 }).direction = -1 ∧
    (Enemy.patrol { Enemy.init 0 0 32 32 100 2 with x := -100 }).direction = 1 ∧
    Enemy.patrol { Enemy.init 0 0 32 32 100 2 with x := 50 } = { Enemy.init 0 0 32 32 100 2 with x := 50 } := by
  refine ⟨(patrol_reversal_inclusive _ (by norm_num [Enemy.init])).1 (by norm_num [Enemy.init]),
          (patrol_reversal_inclusive _ (by norm_num [Enemy.init])).2.1 (by norm_num [Enemy.init]),
          (patrol_reversal_inclusive _ (by norm_num [Enemy.init])).2.2 (by norm_num [Enemy.init]) (by norm_num [Enemy.init])⟩

/-- C2 counterexample: calling `Enemy.set_gravity` with the enemy's current
direction is not a no-op — a grounded enemy loses its `on_ground` flag. -/
theorem enemy_set_gravity_same_direction_cex :
    ¬ (Enemy.set_gravity { Enemy.init 0 0 32 32 100 2 with on_ground := true } 1 =
        { Enemy.init 0 0 32 32 100 2 with on_ground := true }) := by
  intro h
  have h2 := congrArg Enemy.on_ground h
  simp [Enemy.set_gravity, Enemy.init] at h2

/-- C2 (amended): for a `GravityPlatform`, `set_gravity` with the current
direction is a complete no-op (in particular falling is not restarted), while
for an `Enemy`, `set_gravity` always overwrites the direction and forcibly
clears `on_ground`, even when the direction is unchanged. -/
theorem set_gravity_same_direction (g : GravityPlatform) (e : Enemy) (d : ℤ) :
    (d = g.gravity_direction → GravityPlatform.set_gravity g d = g) ∧
    Enemy.set_gravity e d = { e with gravity_direction := d, on_ground := false } := by
  refine ⟨fun h => ?_, rfl⟩
  simp [GravityPlatform.set_gravity, h]

/-- C2 witness: a dormant gravity platform keeps `is_falling = false` under a
same-direction `set_gravity`, and a grounded enemy gets its flag cleared. -/
theorem set_gravity_same_direction_witness :
    GravityPlatform.set_gravity (GravityPlatform.init 0 100 64 16) 1 = GravityPlatform.init 0 100 64 16 ∧
    Enemy.set_gravity { Enemy.init 0 0 32 32 100 2 with on_ground := true } 1 =
      { Enemy.init 0 0 32 32 100 2 with gravity_direction := 1, on_ground := false } :=
  ⟨(set_gravity_same_direction (GravityPlatform.init 0 100 64 16) (Enemy.init 0 0 32 32 100 2) 1).1 rfl,
   (set_gravity_same_direction (GravityPlatform.init 0 100 64 16) { Enemy.init 0 0 32 32 100 2 with on_ground := true } 1).2⟩

lemma player_apply_gravity_gdir (cfg : GameConfig) (p : Player) :
    (Player.apply_gravity cfg p).gravity_direction = p.gravity_direction := by
  unfold Player.apply_gravity
  split <;> rfl

lemma enemy_apply_gravity_gdir (cfg : GameConfig) (e : Enemy) :
    (Enemy.apply_gravity cfg e).gravity_direction = e.gravity_direction := by
  unfold Enemy.apply_gravity
  split <;> rfl

lemma player_apply_gravity_dy_pos (cfg : GameConfig) (p : Player) (h : 0 < p.gravity_direction) :
    (Player.apply_gravity cfg p).dy =
      min (p.dy + cfg.gravity_strength * (p.gravity_direction : ℚ)) cfg.max_fall_speed := by
  simp [Player.apply_gravity, h]

lemma player_apply_gravity_dy_neg (cfg : GameConfig) (p : Player) (h : p.gravity_direction < 0) :
    (Player.apply_gravity cfg p).dy =
      max (p.dy + cfg.gravity_strength * (p.gravity_direction : ℚ)) (-cfg.max_fall_speed) := by
  have hno : ¬ (p.gravity_direction > 0) := by omega
  simp [Player.apply_gravity, hno]

lemma enemy_apply_gravity_dy_pos (cfg : GameConfig) (e : Enemy) (h : 0 < e.gravity_direction) :
    (Enemy.apply_gravity cfg e).dy =
      min (e.dy + cfg.gravity_strength * (e.gravity_direction : ℚ)) cfg.max_fall_speed := by
  simp [Enemy.apply_gravity, h]

lemma enemy_apply_gravity_dy_neg (cfg : GameConfig) (e : Enemy) (h : e.gravity_direction < 0) :
    (Enemy.apply_gravity cfg e).dy =
      max (e.dy + cfg.gravity_strength * (e.gravity_direction : ℚ)) (-cfg.max_fall_speed) := by
  have hno : ¬ (e.gravity_direction > 0) := by omega
  simp [Enemy.apply_gravity, hno]

lemma player_iterate_apply_gravity_pos (cfg : GameConfig) (p : Player) (n : ℕ)
    (hG : 0 ≤ cfg.gravity_strength) (hg : 0 < p.gravity_direction)
    (hdy : p.dy = cfg.max_fall_speed) :
    ((Player.apply_gravity cfg)^[n] p).gravity_direction = p.gravity_direction ∧
    ((Player.apply_gravity cfg)^[n] p).dy = cfg.max_fall_speed := by
  induction n with
  | zero => exact ⟨rfl, hdy⟩
  | succ k ih =>
    rw [Function.iterate_succ_apply']
    refine ⟨by rw [player_apply_gravity_gdir, ih.1], ?_⟩
    have hg2 : 0 < ((Player.apply_gravity cfg)^[k] p).gravity_direction := ih.1 ▸ hg
    rw [player_apply_gravity_dy_pos cfg _ hg2, ih.2]
    have hcast : (0 : ℚ) ≤ (((Player.apply_gravity cfg)^[k] p).gravity_direction : ℚ) := by
      exact_mod_cast le_of_lt hg2
    have : cfg.max_fall_speed ≤ cfg.max_fall_speed +
        cfg.gravity_strength * (((Player.apply_gravity cfg)^[k] p).gravity_direction : ℚ) := by
      nlinarith
    exact min_eq_right this

lemma player_iterate_apply_gravity_neg (cfg : GameConfig) (p : Player) (n : ℕ)
    (hG : 0 ≤ cfg.gravity_strength) (hg : p.gravity_direction < 0)
    (hdy : p.dy = -cfg.max_fall_speed) :
    ((Player.apply_gravity cfg)^[n] p).gravity_direction = p.gravity_direction ∧
    ((Player.apply_gravity cfg)^[n] p).dy = -cfg.max_fall_speed := by
  induction n with
  | zero => exact ⟨rfl, hdy⟩
  | succ k ih =>
    rw [Function.iterate_succ_apply']
    refine ⟨by rw [player_apply_gravity_gdir, ih.1], ?_⟩
    have hg2 : ((Player.apply_gravity cfg)^[k] p).gravity_direction < 0 := ih.1 ▸ hg
    rw [player_apply_gravity_dy_neg cfg _ hg2, ih.2]
    have hcast : (((Player.apply_gravity cfg)^[k] p).gravity_direction : ℚ) ≤ 0 := by
      exact_mod_cast le_of_lt hg2
    have : -cfg.max_fall_speed + cfg.gravity_strength *
        (((Player.apply_gravity cfg)^[k] p).gravity_direction : ℚ) ≤ -cfg.max_fall_speed := by
      nlinarith
    exact max_eq_right this

lemma enemy_iterate_apply_gravity_pos (cfg : GameConfig) (e : Enemy) (n : ℕ)
    (hG : 0 ≤ cfg.gravity_strength) (hg : 0 < e.gravity_direction)
    (hdy : e.dy = cfg.max_fall_speed) :
    ((Enemy.apply_gravity cfg)^[n] e).gravity_direction = e.gravity_direction ∧
    ((Enemy.apply_gravity cfg)^[n] e).dy = cfg.max_fall_speed := by
  induction n with
  | zero => exact ⟨rfl, hdy⟩
  | succ k ih =>
    rw [Function.iterate_succ_apply']
    refine ⟨by rw [enemy_apply_gravity_gdir, ih.1], ?_⟩
    have hg2 : 0 < ((Enemy.apply_gravity cfg)^[k] e).gravity_direction := ih.1 ▸ hg
    rw [enemy_apply_gravity_dy_pos cfg _ hg2, ih.2]
    have hcast : (0 : ℚ) ≤ (((Enemy.apply_gravity cfg)^[k] e).gravity_direction : ℚ) := by
      exact_mod_cast le_of_lt hg2
    have : cfg.max_fall_speed ≤ cfg.max_fall_speed +
        cfg.gravity_strength * (((Enemy.apply_gravity cfg)^[k] e).gravity_direction : ℚ) := by
      nlinarith
    exact min_eq_right this

lemma enemy_iterate_apply_gravity_neg (cfg : GameConfig) (e : Enemy) (n : ℕ)
    (hG : 0 ≤ cfg.gravity_strength) (hg : e.gravity_direction < 0)
    (hdy : e.dy = -cfg.max_fall_speed) :
    ((Enemy.apply_gravity cfg)^[n] e).gravity_direction = e.gravity_direction ∧
    ((Enemy.apply_gravity cfg)^[n] e).dy = -cfg.max_fall_speed := by
  induction n with
  | zero => exact ⟨rfl, hdy⟩
  | succ k ih =>
    rw [Function.iterate_succ_apply']
    refine ⟨by rw [enemy_apply_gravity_gdir, ih.1], ?_⟩
    have hg2 : ((Enemy.apply_gravity cfg)^[k] e).gravity_direction < 0 := ih.1 ▸ hg
    rw [enemy_apply_gravity_dy_neg cfg _ hg2, ih.2]
    have hcast : (((Enemy.apply_gravity cfg)^[k] e).gravity_direction : ℚ) ≤ 0 := by
      exact_mod_cast le_of_lt hg2
    have : -cfg.max_fall_speed + cfg.gravity_strength *
        (((Enemy.apply_gravity cfg)^[k] e).gravity_direction : ℚ) ≤ -cfg.max_fall_speed := by
      nlinarith
    exact max_eq_right this

/-- C3: `apply_gravity` on Player and Enemy adds `G*g` to the vertical
velocity and clamps it (`min` with `M` under downward gravity, `max` with
`-M` under upward gravity); consequently a velocity already at the signed
bound is a fixed point of arbitrarily many applications (for a nonnegative
configured gravity strength, as all configurations have). -/
theorem apply_gravity_clamp_and_idempotence (cfg : GameConfig) (p : Player) (e : Enemy) (n : ℕ) :
    ((0 < p.gravity_direction → (Player.apply_gravity cfg p).dy =
        min (p.dy + cfg.gravity_strength * (p.gravity_direction : ℚ)) cfg.max_fall_speed) ∧
     (p.gravity_direction < 0 → (Player.apply_gravity cfg p).dy =
        max (p.dy + cfg.gravity_strength * (p.gravity_direction : ℚ)) (-cfg.max_fall_speed))) ∧
    ((0 < e.gravity_direction → (Enemy.apply_gravity cfg e).dy =
        min (e.dy + cfg.gravity_strength * (e.gravity_direction : ℚ)) cfg.max_fall_speed) ∧
     (e.gravity_direction < 0 → (Enemy.apply_gravity cfg e).dy =
        max (e.dy + cfg.gravity_strength * (e.gravity_direction : ℚ)) (-cfg.max_fall_speed))) ∧
    (0 ≤ cfg.gravity_strength →
      ((0 < p.gravity_direction → p.dy = cfg.max_fall_speed →
          ((Player.apply_gravity cfg)^[n] p).dy = cfg.max_fall_speed) ∧
       (p.gravity_direction < 0 → p.dy = -cfg.max_fall_speed →
          ((Player.apply_gravity cfg)^[n] p).dy = -cfg.max_fall_speed) ∧
       (0 < e.gravity_direction → e.dy = cfg.max_fall_speed →
          ((Enemy.apply_gravity cfg)^[n] e).dy = cfg.max_fall_speed) ∧
       (e.gravity_direction < 0 → e.dy = -cfg.max_fall_speed →
          ((Enemy.apply_gravity cfg)^[n] e).dy = -cfg.max_fall_speed))) :=
  ⟨⟨player_apply_gravity_dy_pos cfg p, player_apply_gravity_dy_neg cfg p⟩,
   ⟨enemy_apply_gravity_dy_pos cfg e, enemy_apply_gravity_dy_neg cfg e⟩,
   fun hG =>
     ⟨fun hg hdy => (player_iterate_apply_gravity_pos cfg p n hG hg hdy).2,
      fun hg hdy => (player_iterate_apply_gravity_neg cfg p n hG hg hdy).2,
      fun hg hdy => (enemy_iterate_apply_gravity_pos cfg e n hG hg hdy).2,
      fun hg hdy => (enemy_iterate_apply_gravity_neg cfg e n hG hg hdy).2⟩⟩

/-- C3 witness: with the default configuration, a falling player with
`dy = 0` gets `dy = 0.8`, and a player already at the fall-speed cap 15 stays
at 15 after three further applications. -/
theorem apply_gravity_clamp_and_idempotence_witness :
    (Player.apply_gravity default_config (Player.init default_config 0 300)).dy =
      min ((Player.init default_config 0 300).dy +
        default_config.gravity_strength * (((Player.init default_config 0 300).gravity_direction : ℤ) : ℚ))
        default_config.max_fall_speed ∧
    ((Player.apply_gravity default_config)^[3]
        { Player.init default_config 0 300 with dy := 15 }).dy = default_config.max_fall_speed :=
  ⟨((apply_gravity_clamp_and_idempotence default_config (Player.init default_config 0 300)
      (Enemy.init 0 0 32 32 100 2) 3).1).1 (by norm_num [Player.init]),
   (((apply_gravity_clamp_and_idempotence default_config
      { Player.init default_config 0 300 with dy := 15 }
      (Enemy.init 0 0 32 32 100 2) 3).2.2 (by norm_num [default_config])).1
      (by norm_num [Player.init]) (by norm_num [Player.init, default_config]))⟩

/-- C6: after every `MovingPlatform.update` from a state with a valid
direction, progress lies in [0,1], the direction is ±1, the direction is −1
whenever progress has just reached 1 and +1 whenever it has just reached 0,
and the position is the interpolation of start and end by the new progress. -/
theorem moving_platform_update_invariants (m : MovingPlatform)
    (hdir : m.direction = 1 ∨ m.direction = -1) :
    (0 ≤ m.update.progress ∧ m.update.progress ≤ 1) ∧
    (m.update.direction = 1 ∨ m.update.direction = -1) ∧
    (m.update.progress = 1 → m.update.direction = -1) ∧
    (m.update.progress = 0 → m.update.direction = 1) ∧
    m.update.x = m.start_x + (m.end_x - m.start_x) * m.update.progress ∧
    m.update.y = m.start_y + (m.end_y - m.start_y) * m.update.progress := by
  simp only [MovingPlatform.update]
  split_ifs with h1 h2
  · norm_num
  · norm_num
  · push_neg at h1 h2
    refine ⟨⟨le_of_lt h2, le_of_lt h1⟩, hdir, fun h => absurd h (ne_of_lt h1),
      fun h => absurd h (ne_of_gt h2), trivial, trivial⟩

/-- C6 witness: a platform whose progress is driven past 1 bounces to
direction −1 at the end point; one driven to 0 bounces to +1. -/
theorem moving_platform_update_invariants_witness :
    ({ MovingPlatform.init 0 100 64 16 200 100 2 with progress := 1 }.update.direction = 1 ∨
      { MovingPlatform.init 0 100 64 16 200 100 2 with progress := 1 }.update.direction = -1) ∧
    ({ MovingPlatform.init 0 100 64 16 200 100 2 with progress := 1 }.update.progress = 1 →
      { MovingPlatform.init 0 100 64 16 200 100 2 with progress := 1 }.update.direction = -1) ∧
    { MovingPlatform.init 0 100 64 16 200 100 2 with progress := 1 }.update.x =
      0 + (200 - 0) * { MovingPlatform.init 0 100 64 16 200 100 2 with progress := 1 }.update.progress :=
  ⟨(moving_platform_update_invariants _ (Or.inl rfl)).2.1,
   (moving_platform_update_invariants _ (Or.inl rfl)).2.2.1,
   (moving_platform_update_invariants _ (Or.inl rfl)).2.2.2.2.1⟩

/-- C1: vertical resolution branches on the entity's current gravity
direction: a downward-gravity player falling (`dy > 0`) into a platform is
clamped to the platform top minus the player height with `dy = 0` and
`on_ground = true`; an upward-gravity player falling up (`dy < 0`) into a
platform is clamped to the platform bottom with `dy = 0` and
`on_ground = true`. -/
theorem vertical_collision_branches_on_gravity (p : Player) (pl : PlatformObj) :
    (p.gravity_direction = 1 → 0 < p.dy → colliderect p.rect pl.rect = true →
      Player.checkVerticalCollisions p [pl] =
        { p with y := ((pl.rect.top - p.height : ℤ) : ℚ), dy := 0, on_ground := true }) ∧
    (p.gravity_direction = -1 → p.dy < 0 → colliderect p.rect pl.rect = true →
      Player.checkVerticalCollisions p [pl] =
        { p with y := ((pl.rect.bottom : ℤ) : ℚ), dy := 0, on_ground := true }) := by
  constructor
  · intro hg hdy hc
    simp [Player.checkVerticalCollisions, Player.vcStep, hc, hg, hdy]
  · intro hg hdy hc
    have hdy2 : ¬ (p.dy > 0) := by linarith
    simp [Player.checkVerticalCollisions, Player.vcStep, hc, hg, hdy, hdy2]

/-- C1 witness: with the spec's concrete numbers, a default player of height
48 falling onto a platform with top 360 lands at y = 312 = 360 − 48, and an
inverted player falling up against a platform with bottom 250 lands at
y = 250, both with `dy = 0` and `on_ground = true`. -/
theorem vertical_collision_branches_on_gravity_witness :
    Player.checkVerticalCollisions
        { Player.init default_config 0 340 with dy := 10 }
        [.static { x := 0, y := 360, width := 100, height := 20 }] =
      { Player.init default_config 0 340 with dy := 0, y := 312, on_ground := true } ∧
    Player.checkVerticalCollisions
        { Player.init default_config 0 220 with dy := -10, gravity_direction := -1 }
        [.static { x := 0, y := 230, width := 100, height := 20 }] =
      { Player.init default_config 0 220 with dy := 0, y := 250, gravity_direction := -1, on_ground := true } := by
  constructor
  · have h := (vertical_collision_branches_on_gravity
      { Player.init default_config 0 340 with dy := 10 }
      (.static { x := 0, y := 360, width := 100, height := 20 })).1 rfl (by norm_num)
      (by norm_num [colliderect, Player.rect, PlatformObj.rect, pytrunc, Rect.right, Rect.bottom,
        Player.init, default_config])
    rw [h]
    norm_num [PlatformObj.rect, pytrunc, Player.init, default_config]
  · have h := (vertical_collision_branches_on_gravity
      { Player.init default_config 0 220 with dy := -10, gravity_direction := -1 }
      (.static { x := 0, y := 230, width := 100, height := 20 })).2 rfl (by norm_num)
      (by norm_num [colliderect, Player.rect, PlatformObj.rect, pytrunc, Rect.right, Rect.bottom,
        Player.init, default_config])
    rw [h]
    norm_num [PlatformObj.rect, pytrunc, Rect.bottom, Player.init, default_config]

/-- The entity a saved platform record reloads to: statics survive exactly,
moving and gravity platforms are freshly constructed from their saved
geometry. -/
def reloadedPlatform : PlatformObj → PlatformObj
  | .static s => .static s
  | .moving m => .moving (MovingPlatform.init m.x m.y m.width m.height m.end_x m.end_y m.speed)
  | .gravity g => .gravity (GravityPlatform.init g.x g.y g.width g.height)

/-- The enemy a saved enemy record reloads to: freshly constructed at the
patrol anchor. -/
def reloadedEnemy (e : Enemy) : Enemy :=
  Enemy.init e.start_x e.y e.width e.height e.patrol_distance e.speed

lemma loadPlatform_savePlatform (p : PlatformObj) :
    loadPlatform (savePlatform p) = Except.ok (reloadedPlatform p) := by
  cases p <;> rfl

lemma loadEnemy_saveEnemy (e : Enemy) :
    loadEnemy (saveEnemy e) = Except.ok (reloadedEnemy e) := rfl

lemma loadHazard_saveHazard (h : Hazard) :
    loadHazard (saveHazard h) = Except.ok h := rfl

lemma mapE_map_ok {α β γ : Type} (f : β → Except String γ) (g : α → β) (h : α → γ)
    (hfg : ∀ a, f (g a) = Except.ok (h a)) :
    ∀ l : List α, mapE f (l.map g) = Except.ok (l.map h) := by
  intro l
  induction l with
  | nil => rfl
  | cons a as ih =>
    simp only [List.map_cons, mapE, hfg a, ih]

lemma loadLevel_saveLevel (lvl : Level) :
    loadLevel (saveLevel lvl) = Except.ok
      { platforms := lvl.platforms.map reloadedPlatform
        enemies := lvl.enemies.map reloadedEnemy
        hazards := lvl.hazards.map (fun h => h)
        player_spawn := lvl.player_spawn
        level_bounds := lvl.level_bounds
        camera_x := 0 } := by
  unfold loadLevel saveLevel
  rw [mapE_map_ok loadPlatform savePlatform reloadedPlatform loadPlatform_savePlatform,
      mapE_map_ok loadEnemy saveEnemy reloadedEnemy loadEnemy_saveEnemy,
      mapE_map_ok loadHazard saveHazard (fun h => h) loadHazard_saveHazard]
  rfl

/-- C10: `save_to_json` records each enemy's `x` as the patrol anchor
`start_x` and `y` as the current vertical position, so saving and reloading
places every enemy freshly constructed at its anchor. -/
theorem save_records_enemy_anchor (lvl : Level) :
    (saveLevel lvl).enemies = lvl.enemies.map (fun e =>
      { x := some e.start_x, y := some e.y, width := some e.width, height := some e.height
        patrol_distance := some e.patrol_distance, speed := some e.speed }) ∧
    (loadLevel (saveLevel lvl)).map Level.enemies =
      Except.ok (lvl.enemies.map (fun e =>
        Enemy.init e.start_x e.y e.width e.height e.patrol_distance e.speed)) := by
  refine ⟨rfl, ?_⟩
  rw [loadLevel_saveLevel]
  rfl

/-- C7 counterexample: a level whose enemy has walked away from its anchor
(x = 150, anchor = 100) does not survive a save/load round-trip with
identical enemy field values — the reloaded enemy sits at x = 100. -/
theorem level_roundtrip_moved_enemy_cex :
    (loadLevel (saveLevel
        { platforms := [.static { x := 0, y := 550, width := 500, height := 50 },
                        .moving (MovingPlatform.init 1000 450 100 25 1000 150 2)]
          enemies := [{ Enemy.init 100 500 32 32 100 2 with x := 150 }]
          hazards := [{ x := 510, y := 570, width := 80, height := 30 }]
          player_spawn := (100, 300)
          level_bounds := (0, 2000, 0, 600)
          camera_x := 0 })).map (fun l => l.enemies.map Enemy.x) ≠
      Except.ok ([{ Enemy.init 100 500 32 32 100 2 with x := 150 }].map Enemy.x) := by
  rw [loadLevel_saveLevel]
  intro h
  norm_num [Except.map, reloadedEnemy, Enemy.init] at h

/-- C7 (amended): saving then loading a level with one static platform, one
moving platform, one enemy and one hazard always reproduces the counts, the
subtype tags and all serialized fields, with the moving platform and the
enemy returned in freshly-constructed dynamic state; when the moving platform
is at its start in fresh state, the enemy sits at its anchor in fresh state
and the camera is at 0, the reloaded level is identical to the original. -/
theorem level_roundtrip (s : StaticPlatform) (m : MovingPlatform) (e : Enemy)
    (hz : Hazard) (sp : ℚ × ℚ) (bd : ℚ × ℚ × ℚ × ℚ) (cam : ℚ) :
    loadLevel (saveLevel
        { platforms := [.static s, .moving m], enemies := [e], hazards := [hz]
          player_spawn := sp, level_bounds := bd, camera_x := cam }) =
      Except.ok
        { platforms := [.static s,
            .moving (MovingPlatform.init m.x m.y m.width m.height m.end_x m.end_y m.speed)]
          enemies := [Enemy.init e.start_x e.y e.width e.height e.patrol_distance e.speed]
          hazards := [hz], player_spawn := sp, level_bounds := bd, camera_x := 0 } ∧
    (m.start_x = m.x → m.start_y = m.y → m.progress = 0 → m.direction = 1 →
     e.x = e.start_x → e.dx = e.speed → e.dy = 0 → e.direction = 1 →
     e.gravity_direction = 1 → e.on_ground = false → cam = 0 →
      loadLevel (saveLevel
          { platforms := [.static s, .moving m], enemies := [e], hazards := [hz]
            player_spawn := sp, level_bounds := bd, camera_x := cam }) =
        Except.ok
          { platforms := [.static s, .moving m], enemies := [e], hazards := [hz]
            player_spawn := sp, level_bounds := bd, camera_x := cam }) := by
  constructor
  · rw [loadLevel_saveLevel]
    rfl
  · intro h1 h2 h3 h4 h5 h6 h7 h8 h9 h10 h11
    rw [loadLevel_saveLevel]
    obtain ⟨mx, my, mw, mh, msx, msy, mex, mey, msp, mpr, mdir⟩ := m
    obtain ⟨ex, ey, esx, ew, eh2, epd, esp, edx, edy, edir, egd, eog⟩ := e
    simp only at h1 h2 h3 h4 h5 h6 h7 h8 h9 h10
    subst h1 h2 h3 h4 h5 h6 h7 h8 h9 h10 h11
    rfl

/-- C7 witness: a freshly-built level with one static platform, one moving
platform at its start, one enemy at its anchor and one hazard reloads to
exactly itself. -/
theorem level_roundtrip_witness :
    loadLevel (saveLevel
        { platforms := [.static { x := 0, y := 550, width := 500, height := 50 },
                        .moving (MovingPlatform.init 1000 450 100 25 1000 150 2)]
          enemies := [Enemy.init 400 500 32 32 80 2]
          hazards := [{ x := 510, y := 570, width := 80, height := 30 }]
          player_spawn := (100, 400)
          level_bounds := (0, 3000, 0, 600)
          camera_x := 0 }) =
      Except.ok
        { platforms := [.static { x := 0, y := 550, width := 500, height := 50 },
                        .moving (MovingPlatform.init 1000 450 100 25 1000 150 2)]
          enemies := [Enemy.init 400 500 32 32 80 2]
          hazards := [{ x := 510, y := 570, width := 80, height := 30 }]
          player_spawn := (100, 400)
          level_bounds := (0, 3000, 0, 600)
          camera_x := 0 } :=
  (level_roundtrip { x := 0, y := 550, width := 500, height := 50 }
      (MovingPlatform.init 1000 450 100 25 1000 150 2)
      (Enemy.init 400 500 32 32 80 2)
      { x := 510, y := 570, width := 80, height := 30 }
      (100, 400) (0, 3000, 0, 600) 0).2
    rfl rfl rfl rfl rfl rfl rfl rfl rfl rfl rfl

lemma loadPlatform_isOk_false (p : PlatformEntry)
    (hmiss : p.x = none ∨ p.y = none ∨ p.width = none ∨ p.height = none) :
    isOkE (loadPlatform p) = false := by
  obtain ⟨t, px, py, pw, ph, pex, pey, ps⟩ := p
  simp only at hmiss
  simp only [loadPlatform]
  split_ifs <;>
    cases px <;> cases py <;> cases pw <;> cases ph <;>
      simp_all [req, isOkE, except_bind_error, except_bind_ok]

lemma loadHazard_isOk_false (h : HazardEntry)
    (hmiss : h.x = none ∨ h.y = none ∨ h.width = none ∨ h.height = none) :
    isOkE (loadHazard h) = false := by
  obtain ⟨hx, hy, hw, hh⟩ := h
  simp only at hmiss
  unfold loadHazard
  cases hx <;> cases hy <;> cases hw <;> cases hh <;>
    simp_all [req, isOkE, except_bind_error, except_bind_ok]

lemma loadEnemy_isOk_false (e : EnemyEntry) (hmiss : e.x = none ∨ e.y = none) :
    isOkE (loadEnemy e) = false := by
  obtain ⟨ex, ey, ew, eh, epd, es⟩ := e
  simp only at hmiss
  unfold loadEnemy
  cases ex <;> cases ey <;>
    simp_all [req, isOkE, except_bind_error, except_bind_ok]

lemma mapE_isOk_false {α β : Type} (f : α → Except String β) (l : List α)
    (h : ∃ a ∈ l, isOkE (f a) = false) : isOkE (mapE f l) = false := by
  induction l with
  | nil => simp at h
  | cons a as ih =>
    obtain ⟨b, hb, hfb⟩ := h
    rcases List.mem_cons.mp hb with rfl | hmem
    · unfold mapE
      cases hfa : f b with
      | error msg => rfl
      | ok v => rw [hfa] at hfb; simp [isOkE] at hfb
    · unfold mapE
      cases hfa : f a with
      | error msg => rfl
      | ok v =>
        have htail := ih ⟨b, hmem, hfb⟩
        cases hm : mapE f as with
        | error msg => rfl
        | ok vs => rw [hm] at htail; simp [isOkE] at htail

lemma loadLevel_isOk_false (d : LevelData)
    (h : (∃ p ∈ d.platforms, p.x = none ∨ p.y = none ∨ p.width = none ∨ p.height = none) ∨
         (∃ hz ∈ d.hazards, hz.x = none ∨ hz.y = none ∨ hz.width = none ∨ hz.height = none) ∨
         (∃ e ∈ d.enemies, e.x = none ∨ e.y = none)) :
    isOkE (loadLevel d) = false := by
  unfold loadLevel
  rcases h with h | h | h
  · have hp : isOkE (mapE loadPlatform d.platforms) = false := by
      obtain ⟨p, hp, hmiss⟩ := h
      exact mapE_isOk_false _ _ ⟨p, hp, loadPlatform_isOk_false p hmiss⟩
    cases hm : mapE loadPlatform d.platforms with
    | error msg => rfl
    | ok v => rw [hm] at hp; simp [isOkE] at hp
  · have hh : isOkE (mapE loadHazard d.hazards) = false := by
      obtain ⟨hz, hhz, hmiss⟩ := h
      exact mapE_isOk_false _ _ ⟨hz, hhz, loadHazard_isOk_false hz hmiss⟩
    cases hm : mapE loadPlatform d.platforms with
    | error msg => rfl
    | ok v =>
      rw [except_bind_ok]
      cases hm2 : mapE loadEnemy d.enemies with
      | error msg => rfl
      | ok v2 =>
        rw [except_bind_ok]
        cases hm3 : mapE loadHazard d.hazards with
        | error msg => rfl
        | ok v3 => rw [hm3] at hh; simp [isOkE] at hh
  · have he : isOkE (mapE loadEnemy d.enemies) = false := by
      obtain ⟨e, he2, hmiss⟩ := h
      exact mapE_isOk_false _ _ ⟨e, he2, loadEnemy_isOk_false e hmiss⟩
    cases hm : mapE loadPlatform d.platforms with
    | error msg => rfl
    | ok v =>
      rw [except_bind_ok]
      cases hm2 : mapE loadEnemy d.enemies with
      | error msg => rfl
      | ok v2 => rw [hm2] at he; simp [isOkE] at he

/-- C8 counterexample: an enemy entry carrying only `x` and `y` (no `width`,
no `height`) does not make the load fail — it loads with the defaults
width = height = 32, patrol distance 100 and speed 2. -/
theorem enemy_missing_dims_loads_cex :
    loadLevel
        { bounds := none, spawn := none, platforms := []
          enemies := [{ x := some 10, y := some 20, width := none, height := none
                        patrol_distance := none, speed := none }]
          hazards := [] } =
      Except.ok
        { platforms := [], enemies := [Enemy.init 10 20 32 32 100 2], hazards := []
          player_spawn := (100, 300), level_bounds := (0, 2000, 0, 600), camera_x := 0 } := rfl

/-- C8 (amended): a platform or hazard entry missing any of `x`, `y`,
`width`, `height`, or an enemy entry missing `x` or `y`, aborts
`load_from_json` with an error and no level is produced; an enemy entry's
`width` and `height` are optional like `patrol_distance` and `speed`, and a
missing optional field falls back to its default (width/height 32,
patrol_distance 100, speed 2.0). -/
theorem load_required_and_optional_fields (d : LevelData) (x y : ℚ) :
    ((∃ p ∈ d.platforms, p.x = none ∨ p.y = none ∨ p.width = none ∨ p.height = none) ∨
     (∃ hz ∈ d.hazards, hz.x = none ∨ hz.y = none ∨ hz.width = none ∨ hz.height = none) ∨
     (∃ e ∈ d.enemies, e.x = none ∨ e.y = none) →
      isOkE (loadLevel d) = false) ∧
    loadEnemy { x := some x, y := some y, width := none, height := none
                patrol_distance := none, speed := none } =
      Except.ok (Enemy.init x y 32 32 100 2) :=
  ⟨loadLevel_isOk_false d, rfl⟩

/-- C8 witness: a platform entry missing its `width` key aborts the load of a
concrete level file, and an enemy entry with only `x = 10`, `y = 20` loads to
the default-sized enemy. -/
theorem load_required_and_optional_fields_witness :
    isOkE (loadLevel
        { bounds := none, spawn := none
          platforms := [{ type := some "static", x := some 0, y := some 550
                          width := none, height := some 50
                          end_x := none, end_y := none, speed := none }]
          enemies := [], hazards := [] }) = false ∧
    loadEnemy { x := some 10, y := some 20, width := none, height := none
                patrol_distance := none, speed := none } =
      Except.ok (Enemy.init 10 20 32 32 100 2) :=
  ⟨(load_required_and_optional_fields
      { bounds := none, spawn := none
        platforms := [{ type := some "static", x := some 0, y := some 550
                        width := none, height := some 50
                        end_x := none, end_y := none, speed := none }]
        enemies := [], hazards := [] } 10 20).1
      (Or.inl ⟨_, List.mem_singleton.mpr rfl, Or.inr (Or.inr (Or.inl rfl))⟩),
   (load_required_and_optional_fields
      { bounds := none, spawn := none, platforms := [], enemies := [], hazards := [] } 10 20).2⟩
